import Mathlib

/-!
Verification of the simagis-server-express specification against a shallow
embedding of the TypeScript sources.

The embedding follows the source files:
  * `src/utils/pagination.ts`   (`PaginationUtils`)
  * `src/utils/password.ts`     (`PasswordUtils`)
  * `src/utils/customErrors.ts` (error taxonomy)
  * `src/utils/jwt.ts`          (`JwtUtils`, staged as the second document of
                                 `src/utils/validation.ts`)
  * `src/services/authService.ts` (`AuthService`, `BankService`)
  * `src/services/colorService.ts` (`ColorService`)
  * `prisma/schema.prisma`      (`@unique` column constraints)

The Prisma store is embedded as explicit lists of rows passed through each
operation; `findFirst`/`findUnique` become `List.find?`, `updateMany` becomes
`List.map` guarded by the `where` predicate, and `create` appends a row after
enforcing the schema's `@unique` constraints (a violation throws the client's
P2002 error, which the services do not catch).  JavaScript numbers that hold
integral values are embedded as `Int`; the clock second at which a request
runs (`Date.now()` as JWTs see it) is an explicit `now : Nat` argument.
-/

deriving instance DecidableEq for Except

namespace Simagis

/-! ## Error taxonomy (`src/utils/customErrors.ts`)

Each service raises one of these typed errors; only the classes that the
claims mention are embedded.  The `String` argument is the error message.
`prismaUniqueViolation` is not a `customErrors` class: it stands for the
storage client's `PrismaClientKnownRequestError` with code `P2002` (a
`@unique` constraint of `prisma/schema.prisma` was violated; its argument
is the `meta.target` column).  The services do not catch it; the error
middleware later maps it to a 409 ConflictError, but at the service layer
it is a distinct thrown value. -/

inductive SvcError where
  | authentication (msg : String)
  | validation (msg : String)
  | conflict (msg : String)
  | notFound (msg : String)
  | prismaUniqueViolation (target : String)
deriving DecidableEq, Repr

/-! ## Pagination (`src/utils/pagination.ts`) -/

/-- A JavaScript value arriving in `query.page` / `query.limit`.
`parsePaginationParams` feeds it through `parseInt(String(v || default))`:

  * `undef`    — the key is absent (`undefined`, falsy);
  * `numV n`   — a JS number holding the integer `n` (`0` is falsy);
  * `strInt n` — a non-empty string on which `parseInt` yields `n`
                 (for example `"-5"`, `"12"`, `"3.9"`, `"12abc"`);
  * `strEmpty` — the empty string (falsy);
  * `strNaN`   — a non-empty string on which `parseInt` yields `NaN`. -/
inductive QueryNum where
  | undef
  | numV (n : Int)
  | strInt (n : Int)
  | strEmpty
  | strNaN
deriving DecidableEq, Repr

namespace QueryNum

/-- JavaScript truthiness of the value (`v || d` keeps `v` iff truthy). -/
def isTruthy : QueryNum → Bool
  | undef => false
  | numV n => decide (n ≠ 0)
  | strInt _ => true
  | strEmpty => false
  | strNaN => true

/-- `parseInt(String(v))`: `some n` when it yields the integer `n`,
`none` when it yields `NaN`. -/
def parseIntJS : QueryNum → Option Int
  | undef => none
  | numV n => some n
  | strInt n => some n
  | strEmpty => none
  | strNaN => none

/-- `parseInt(String(v || d))` for an integer default `d`
(`String(d)` parses back to `d`). -/
def parseWithDefault (v : QueryNum) (d : Int) : Option Int :=
  if v.isTruthy then v.parseIntJS else some d

end QueryNum

/-- The query object consumed by `PaginationUtils.parsePaginationParams`
(`PaginationParams` in the source). -/
structure PaginationParams where
  page : QueryNum
  limit : QueryNum
  sortBy : Option String
  sortOrder : Option String
deriving DecidableEq, Repr

/-- The result of `PaginationUtils.parsePaginationParams`
(`PaginationOptions` in the source). -/
structure PaginationOptions where
  page : Int
  limit : Int
  skip : Int
  sortBy : String
  sortOrder : String
deriving DecidableEq, Repr

/-- The `pagination` object built by `PaginationUtils.createMetadata`. -/
structure PaginationMetadata where
  page : Int
  limit : Int
  total : Int
  totalPages : Int
  hasNext : Bool
  hasPrev : Bool
deriving DecidableEq, Repr

/-- The value of `PaginationUtils.createPaginatedResult`. -/
structure PaginatedResult (α : Type) where
  data : List α
  pagination : PaginationMetadata
deriving DecidableEq, Repr

namespace PaginationUtils

/-- `let page = parseInt(String(query.page || 1)); if (isNaN(page) || page < 1) page = 1;` -/
def parsePage (v : QueryNum) : Int :=
  match QueryNum.parseWithDefault v 1 with
  | none => 1
  | some p => if p < 1 then 1 else p

/-- `let limit = parseInt(String(query.limit || 10));
if (isNaN(limit) || limit < 1) limit = 10; if (limit > maxLimit) limit = maxLimit;` -/
def parseLimit (v : QueryNum) (maxLimit : Int) : Int :=
  let l : Int :=
    match QueryNum.parseWithDefault v 10 with
    | none => 10
    | some l => if l < 1 then 10 else l
  if l > maxLimit then maxLimit else l

/-- `PaginationUtils.parsePaginationParams(query, defaultSortBy, maxLimit)`.

Mirrors the source: page and limit parsing as in `parsePage`/`parseLimit`,
`skip = (page - 1) * limit`, `sortOrder` kept only when it is exactly
`"asc"` or `"desc"`, `sortBy = query.sortBy || defaultSortBy`. -/
def parsePaginationParams (query : PaginationParams) (defaultSortBy : String)
    (maxLimit : Int) : PaginationOptions :=
  { page := parsePage query.page,
    limit := parseLimit query.limit maxLimit,
    skip := (parsePage query.page - 1) * parseLimit query.limit maxLimit,
    sortBy :=
      match query.sortBy with
      | none => defaultSortBy
      | some s => if s = "" then defaultSortBy else s,
    sortOrder :=
      if query.sortOrder = some "asc" ∨ query.sortOrder = some "desc" then
        query.sortOrder.getD "desc"
      else "desc" }

/-- `PaginationUtils.createMetadata(page, limit, total)`:
`totalPages = Math.ceil(total / limit)` (exact rational division, then
ceiling), `hasNext = page < totalPages`, `hasPrev = page > 1`. -/
def createMetadata (page limit total : Int) : PaginationMetadata :=
  { page := page, limit := limit, total := total,
    totalPages := ⌈(total : ℚ) / (limit : ℚ)⌉,
    hasNext := decide (page < ⌈(total : ℚ) / (limit : ℚ)⌉),
    hasPrev := decide (page > 1) }

/-- `PaginationUtils.createPaginatedResult(data, page, limit, total)`. -/
def createPaginatedResult {α : Type} (data : List α) (page limit total : Int) :
    PaginatedResult α :=
  { data := data, pagination := createMetadata page limit total }

end PaginationUtils

/-- The integer that the claim calls "the parsed integer" of a supplied
query value: `some n` when the raw value is numeric (a JS number or a
string with a numeric prefix), `none` when it is non-numeric or absent. -/
def suppliedInt : QueryNum → Option Int
  | QueryNum.numV n => some n
  | QueryNum.strInt n => some n
  | _ => none

lemma parsePage_eq (v : QueryNum) :
    PaginationUtils.parsePage v =
      match suppliedInt v with
      | none => 1
      | some n => if n < 1 then 1 else n := by
  cases v with
  | numV n =>
    by_cases h : n = 0
    · simp [PaginationUtils.parsePage, QueryNum.parseWithDefault,
        QueryNum.isTruthy, QueryNum.parseIntJS, suppliedInt, h]
    · simp [PaginationUtils.parsePage, QueryNum.parseWithDefault,
        QueryNum.isTruthy, QueryNum.parseIntJS, suppliedInt, h]
  | undef =>
    simp [PaginationUtils.parsePage, QueryNum.parseWithDefault,
      QueryNum.isTruthy, QueryNum.parseIntJS, suppliedInt]
  | strInt n =>
    simp [PaginationUtils.parsePage, QueryNum.parseWithDefault,
      QueryNum.isTruthy, QueryNum.parseIntJS, suppliedInt]
  | strEmpty =>
    simp [PaginationUtils.parsePage, QueryNum.parseWithDefault,
      QueryNum.isTruthy, QueryNum.parseIntJS, suppliedInt]
  | strNaN =>
    simp [PaginationUtils.parsePage, QueryNum.parseWithDefault,
      QueryNum.isTruthy, QueryNum.parseIntJS, suppliedInt]

lemma parseLimit_eq (v : QueryNum) (maxLimit : Int) :
    PaginationUtils.parseLimit v maxLimit =
      match suppliedInt v with
      | none => if 10 > maxLimit then maxLimit else 10
      | some n =>
          if n < 1 then (if 10 > maxLimit then maxLimit else 10)
          else (if n > maxLimit then maxLimit else n) := by
  cases v with
  | numV n =>
    by_cases h : n = 0
    · simp [PaginationUtils.parseLimit, QueryNum.parseWithDefault,
        QueryNum.isTruthy, QueryNum.parseIntJS, suppliedInt, h]
    · simp only [PaginationUtils.parseLimit, QueryNum.parseWithDefault,
        QueryNum.isTruthy, QueryNum.parseIntJS, suppliedInt, h,
        decide_eq_true_eq, if_true, ne_eq, not_false_iff]
      split_ifs <;> omega
  | undef =>
    simp [PaginationUtils.parseLimit, QueryNum.parseWithDefault,
      QueryNum.isTruthy, QueryNum.parseIntJS, suppliedInt]
  | strInt n =>
    simp only [PaginationUtils.parseLimit, QueryNum.parseWithDefault,
      QueryNum.isTruthy, QueryNum.parseIntJS, suppliedInt, if_true]
    split_ifs <;> omega
  | strEmpty =>
    simp [PaginationUtils.parseLimit, QueryNum.parseWithDefault,
      QueryNum.isTruthy, QueryNum.parseIntJS, suppliedInt]
  | strNaN =>
    simp [PaginationUtils.parseLimit, QueryNum.parseWithDefault,
      QueryNum.isTruthy, QueryNum.parseIntJS, suppliedInt]

lemma one_le_parsePage (v : QueryNum) : 1 ≤ PaginationUtils.parsePage v := by
  rw [parsePage_eq]
  cases h : suppliedInt v with
  | none => simp
  | some n => simp only []; split <;> omega

lemma one_le_parseLimit (v : QueryNum) (maxLimit : Int) (h : 1 ≤ maxLimit) :
    1 ≤ PaginationUtils.parseLimit v maxLimit := by
  rw [parseLimit_eq]
  cases hv : suppliedInt v with
  | none => simp only []; split <;> omega
  | some n => simp only []; split_ifs <;> omega

/-- **C2** — For every query object (with the callers' cap `maxLimit ≥ 10`):
`page` coerces to 1 on non-numeric or sub-1 input and is the parsed integer
otherwise; `limit` coerces to 10 on non-numeric or sub-1 input, clamps to
`maxLimit` above it, and is the parsed integer otherwise; `skip` is
`(page-1)*limit` and is non-negative; `sortOrder` defaults to `"desc"`
unless the supplied value is exactly `"asc"` or `"desc"`. -/
theorem parsePaginationParams_spec (query : PaginationParams)
    (defaultSortBy : String) (maxLimit : Int) (hmax : 10 ≤ maxLimit) :
    let r := PaginationUtils.parsePaginationParams query defaultSortBy maxLimit
    ((suppliedInt query.page = none ∨ ∃ n, suppliedInt query.page = some n ∧ n < 1) →
        r.page = 1) ∧
    (∀ n, suppliedInt query.page = some n → 1 ≤ n → r.page = n) ∧
    ((suppliedInt query.limit = none ∨ ∃ n, suppliedInt query.limit = some n ∧ n < 1) →
        r.limit = 10) ∧
    (∀ n, suppliedInt query.limit = some n → maxLimit < n → r.limit = maxLimit) ∧
    (∀ n, suppliedInt query.limit = some n → 1 ≤ n → n ≤ maxLimit → r.limit = n) ∧
    r.skip = (r.page - 1) * r.limit ∧
    0 ≤ r.skip ∧
    (query.sortOrder ≠ some "asc" → query.sortOrder ≠ some "desc" →
        r.sortOrder = "desc") := by
  have hp := parsePage_eq query.page
  have hl := parseLimit_eq query.limit maxLimit
  refine ⟨?_, ?_, ?_, ?_, ?_, rfl, ?_, ?_⟩
  · rintro (h | ⟨n, hn, hlt⟩)
    · show PaginationUtils.parsePage query.page = 1
      rw [hp, h]
    · show PaginationUtils.parsePage query.page = 1
      rw [hp, hn]
      simp only []
      rw [if_pos hlt]
  · intro n hn h1
    show PaginationUtils.parsePage query.page = n
    rw [hp, hn]
    simp only []
    rw [if_neg (by omega)]
  · rintro (h | ⟨n, hn, hlt⟩)
    · show PaginationUtils.parseLimit query.limit maxLimit = 10
      rw [hl, h]
      simp only []
      rw [if_neg (by omega)]
    · show PaginationUtils.parseLimit query.limit maxLimit = 10
      rw [hl, hn]
      simp only []
      rw [if_pos hlt, if_neg (by omega)]
  · intro n hn hlt
    show PaginationUtils.parseLimit query.limit maxLimit = maxLimit
    rw [hl, hn]
    simp only []
    split_ifs <;> omega
  · intro n hn h1 hle
    show PaginationUtils.parseLimit query.limit maxLimit = n
    rw [hl, hn]
    simp only []
    split_ifs <;> omega
  · show 0 ≤ (PaginationUtils.parsePage query.page - 1) *
      PaginationUtils.parseLimit query.limit maxLimit
    have h1 := one_le_parsePage query.page
    have h2 := one_le_parseLimit query.limit maxLimit (by omega)
    nlinarith
  · intro ha hd
    show (if query.sortOrder = some "asc" ∨ query.sortOrder = some "desc" then
        query.sortOrder.getD "desc" else "desc") = "desc"
    rw [if_neg]
    rintro (h | h) <;> simp_all

/-- Witness for `parsePaginationParams_spec` at the spec's own example:
`parseParams({page:"-5", limit:"9999"}, "createdAt", 100)`. -/
theorem parsePaginationParams_spec_witness :
    (10 : Int) ≤ 100 ∧
    (let r := PaginationUtils.parsePaginationParams
        ⟨QueryNum.strInt (-5), QueryNum.strInt 9999, none, none⟩ "createdAt" 100
     ((suppliedInt (QueryNum.strInt (-5)) = none ∨
        ∃ n, suppliedInt (QueryNum.strInt (-5)) = some n ∧ n < 1) → r.page = 1) ∧
     (∀ n, suppliedInt (QueryNum.strInt (-5)) = some n → 1 ≤ n → r.page = n) ∧
     ((suppliedInt (QueryNum.strInt 9999) = none ∨
        ∃ n, suppliedInt (QueryNum.strInt 9999) = some n ∧ n < 1) → r.limit = 10) ∧
     (∀ n, suppliedInt (QueryNum.strInt 9999) = some n → 100 < n → r.limit = 100) ∧
     (∀ n, suppliedInt (QueryNum.strInt 9999) = some n → 1 ≤ n → n ≤ 100 → r.limit = n) ∧
     r.skip = (r.page - 1) * r.limit ∧
     0 ≤ r.skip ∧
     ((none : Option String) ≠ some "asc" → (none : Option String) ≠ some "desc" →
        r.sortOrder = "desc")) :=
  ⟨by decide,
   parsePaginationParams_spec
     ⟨QueryNum.strInt (-5), QueryNum.strInt 9999, none, none⟩ "createdAt" 100
     (by decide)⟩

/-- **C3** — For every `page > 0`, `limit > 0`, `total ≥ 0`, the metadata of
`createMetadata`/`createPaginatedResult` has `totalPages = ⌈total/limit⌉`
(characterised as the least non-negative `k` with `total ≤ k * limit`),
`hasNext = (page < totalPages)`, `hasPrev = (page > 1)`; and `total = 0`
yields `totalPages = 0` and `hasNext = false` while `hasPrev` still equals
`page > 1`. -/
theorem createMetadata_spec (m : PaginationMetadata) (page limit total : Int)
    (hm : m = PaginationUtils.createMetadata page limit total) (hp : 0 < page)
    (hl : 0 < limit) (ht : 0 ≤ total) :
    (0 ≤ m.totalPages ∧ total ≤ m.totalPages * limit ∧
      (∀ k : Int, 0 ≤ k → total ≤ k * limit → m.totalPages ≤ k)) ∧
    (m.hasNext = true ↔ page < m.totalPages) ∧
    (m.hasPrev = true ↔ 1 < page) ∧
    (∀ d : List Nat,
      (PaginationUtils.createPaginatedResult d page limit total).pagination = m) ∧
    (total = 0 → m.totalPages = 0 ∧ m.hasNext = false) := by
  subst hm
  have hlQ : (0 : ℚ) < (limit : ℚ) := by exact_mod_cast hl
  have hceil0 : total = 0 → ⌈(total : ℚ) / (limit : ℚ)⌉ = 0 := by
    intro h0
    rw [h0]
    simp
  refine ⟨⟨?_, ?_, ?_⟩, ?_, ?_, ?_, ?_⟩
  · show (0 : Int) ≤ ⌈(total : ℚ) / (limit : ℚ)⌉
    apply Int.ceil_nonneg
    apply div_nonneg _ hlQ.le
    exact_mod_cast ht
  · show total ≤ ⌈(total : ℚ) / (limit : ℚ)⌉ * limit
    have h1 : (total : ℚ) / (limit : ℚ) ≤ (⌈(total : ℚ) / (limit : ℚ)⌉ : ℚ) :=
      Int.le_ceil _
    have h2 : (total : ℚ) ≤ (⌈(total : ℚ) / (limit : ℚ)⌉ : ℚ) * (limit : ℚ) :=
      (div_le_iff₀ hlQ).mp h1
    exact_mod_cast h2
  · intro k hk hkl
    show ⌈(total : ℚ) / (limit : ℚ)⌉ ≤ k
    apply Int.ceil_le.mpr
    apply (div_le_iff₀ hlQ).mpr
    exact_mod_cast hkl
  · show decide (page < ⌈(total : ℚ) / (limit : ℚ)⌉) = true ↔
      page < ⌈(total : ℚ) / (limit : ℚ)⌉
    exact decide_eq_true_iff
  · show decide (page > 1) = true ↔ 1 < page
    exact decide_eq_true_iff
  · intro d
    rfl
  · intro h0
    constructor
    · exact hceil0 h0
    · show decide (page < ⌈(total : ℚ) / (limit : ℚ)⌉) = false
      rw [hceil0 h0]
      simp
      omega

/-- Witness for `createMetadata_spec` at the spec's example
`buildResult([], 1, 10, 0)`: the metadata is
`{page: 1, limit: 10, total: 0, totalPages: 0, hasNext: false, hasPrev: false}`. -/
theorem createMetadata_spec_witness :
    (PaginationMetadata.mk 1 10 0 0 false false =
        PaginationUtils.createMetadata 1 10 0) ∧
    ((0 ≤ (PaginationMetadata.mk 1 10 0 0 false false).totalPages ∧
        (0 : Int) ≤ (PaginationMetadata.mk 1 10 0 0 false false).totalPages * 10 ∧
        (∀ k : Int, 0 ≤ k → (0 : Int) ≤ k * 10 →
          (PaginationMetadata.mk 1 10 0 0 false false).totalPages ≤ k)) ∧
      ((PaginationMetadata.mk 1 10 0 0 false false).hasNext = true ↔
        (1 : Int) < (PaginationMetadata.mk 1 10 0 0 false false).totalPages) ∧
      ((PaginationMetadata.mk 1 10 0 0 false false).hasPrev = true ↔ (1 : Int) < 1) ∧
      (∀ d : List Nat,
        (PaginationUtils.createPaginatedResult d 1 10 0).pagination =
          PaginationMetadata.mk 1 10 0 0 false false) ∧
      ((0 : Int) = 0 →
        (PaginationMetadata.mk 1 10 0 0 false false).totalPages = 0 ∧
        (PaginationMetadata.mk 1 10 0 0 false false).hasNext = false)) :=
  have hm : PaginationMetadata.mk 1 10 0 0 false false =
      PaginationUtils.createMetadata 1 10 0 := by
    simp only [PaginationUtils.createMetadata]
    norm_num
  ⟨hm, createMetadata_spec _ 1 10 0 hm (by decide) (by decide) (by decide)⟩

/-! ## Password hashing (`src/utils/password.ts`) -/

/-- A bcrypt hash of a value of type `α` (the source hashes both password
strings and refresh tokens with `PasswordUtils.hashPassword`).  bcrypt is
idealised: verification succeeds exactly on the value that was hashed. -/
structure Hashed (α : Type) where
  value : α
deriving DecidableEq, Repr

/-- Result of `PasswordUtils.validatePasswordStrength`. -/
structure PasswordValidation where
  isValid : Bool
  errors : List String
deriving DecidableEq, Repr

namespace PasswordUtils

/-- `PasswordUtils.hashPassword` (bcrypt, idealised). -/
def hashPassword {α : Type} (plain : α) : Hashed α := ⟨plain⟩

/-- `PasswordUtils.verifyPassword` (bcrypt compare, idealised). -/
def verifyPassword {α : Type} [DecidableEq α] (plain : α) (hashed : Hashed α) :
    Bool :=
  decide (plain = hashed.value)

/-- The special-character class of `/[!@#$%^&*(),.?":\x7b\x7d|<>]/`. -/
def specialChars : List Char := "!@#$%^&*(),.?\":\x7b\x7d|<>".toList

/-- `PasswordUtils.validatePasswordStrength`: at least 8 characters, one
lowercase, one uppercase, one digit, one special character. -/
def validatePasswordStrength (password : String) : PasswordValidation :=
  let errors : List String :=
    (if password.length < 8 then ["Password must be at least 8 characters long"] else []) ++
    (if password.toList.any Char.isLower then [] else
      ["Password must contain at least one lowercase letter"]) ++
    (if password.toList.any Char.isUpper then [] else
      ["Password must contain at least one uppercase letter"]) ++
    (if password.toList.any Char.isDigit then [] else
      ["Password must contain at least one number"]) ++
    (if password.toList.any (fun c => specialChars.contains c) then [] else
      ["Password must contain at least one special character"])
  { isValid := errors.isEmpty, errors := errors }

end PasswordUtils

/-! ## Token utility (`src/utils/jwt.ts`, staged as the second document of
`src/utils/validation.ts`) -/

/-- The `JwtPayload` interface: the payload carried by both access and
refresh tokens. -/
structure JwtPayload where
  userId : Int
  email : String
  role : String
  code : String
deriving DecidableEq, Repr

/-- A JWT string as `jwt.sign(payload, JWT_SECRET, {expiresIn, issuer,
audience})` produces it.  HS256 signing is deterministic, the issuer,
audience and secret are fixed, and `jsonwebtoken` adds `iat` (the clock
second at signing) and `exp = iat + expiresIn` to the payload — so the
produced string is a function of exactly `(payload, iat, exp)`.  In
particular two `sign` calls with the same payload and the same `expiresIn`
within the same clock second yield the *identical* string.  `invalid s`
stands for any string that is not a token signed by this server (its
verification fails with `JsonWebTokenError`). -/
inductive Token where
  | signed (payload : JwtPayload) (iat : Nat) (exp : Nat)
  | invalid (s : String)
deriving DecidableEq, Repr

/-- The `TokenPair` interface returned by `JwtUtils.generateTokenPair`. -/
structure TokenPair where
  accessToken : Token
  refreshToken : Token
deriving DecidableEq, Repr

namespace JwtUtils

/-- `JWT_EXPIRES_IN` (default `'24h'`), in seconds. -/
def jwtExpiresIn : Nat := 86400

/-- `JWT_REFRESH_EXPIRES_IN` (default `'7d'`), in seconds. -/
def jwtRefreshExpiresIn : Nat := 604800

/-- `JwtUtils.generateAccessToken` running in the clock second `now`. -/
def generateAccessToken (payload : JwtPayload) (now : Nat) : Token :=
  Token.signed payload now (now + jwtExpiresIn)

/-- `JwtUtils.generateRefreshToken` running in the clock second `now`. -/
def generateRefreshToken (payload : JwtPayload) (now : Nat) : Token :=
  Token.signed payload now (now + jwtRefreshExpiresIn)

/-- `JwtUtils.generateTokenPair` running in the clock second `now`. -/
def generateTokenPair (payload : JwtPayload) (now : Nat) : TokenPair :=
  { accessToken := generateAccessToken payload now,
    refreshToken := generateRefreshToken payload now }

/-- `JwtUtils.verifyToken` running in the clock second `now`: `jwt.verify`
returns the decoded payload of an unexpired token signed by this server;
a foreign/forged string raises AuthenticationError `'Invalid token'`
(`JsonWebTokenError`) and an expired one raises `'Token expired'`
(`TokenExpiredError`), both thrown by this function itself. -/
def verifyToken (tok : Token) (now : Nat) : Except SvcError JwtPayload :=
  match tok with
  | Token.signed p _ exp =>
    if now < exp then Except.ok p
    else Except.error (SvcError.authentication "Token expired")
  | Token.invalid _ => Except.error (SvcError.authentication "Invalid token")

end JwtUtils

/-! ## Persistent store rows (`prisma/schema.prisma`) -/

/-- A `User` row. -/
structure User where
  id : Int
  email : String
  password : Hashed String
  name : String
  username : String
  phone : String
  role : String
  address : Option String
  code : String
  expenseLimit : Int
  discountLimit : Int
  point : Int
  balance : Int
deriving DecidableEq, Repr

/-- A `UserRefreshToken` row: the refresh token is stored hashed, with a
`revoked` flag (default `false`). -/
structure UserRefreshToken where
  id : Int
  hashedToken : Hashed Token
  userId : Int
  revoked : Bool
deriving DecidableEq, Repr

/-- The slice of the store that `AuthService` touches, plus the counters
that stand for the store's generated ids (`autoincrement()` for users,
`uuid()` for refresh-token rows: fresh and unique either way). -/
structure AuthDb where
  users : List User
  refreshTokens : List UserRefreshToken
  nextUserId : Int
  nextTokenId : Int
deriving DecidableEq, Repr

/-- The `UserResponse` shape: a user with the `password` field absent
(the `select` used by `register`/`login` omits it). -/
structure UserResponse where
  id : Int
  email : String
  name : String
  username : String
  phone : String
  role : String
  address : Option String
  code : String
  expenseLimit : Int
  discountLimit : Int
  point : Int
  balance : Int
deriving DecidableEq, Repr

/-- Project a `User` row to the password-less `UserResponse`. -/
def User.toResponse (u : User) : UserResponse :=
  { id := u.id, email := u.email, name := u.name, username := u.username,
    phone := u.phone, role := u.role, address := u.address, code := u.code,
    expenseLimit := u.expenseLimit, discountLimit := u.discountLimit,
    point := u.point, balance := u.balance }

/-! ## Request/response shapes (`src/types/index.ts`) -/

/-- `RegisterRequest` (= `CreateUserRequest`): `address`, `expenseLimit`
and `discountLimit` are optional. -/
structure RegisterRequest where
  email : String
  password : String
  name : String
  username : String
  phone : String
  role : String
  address : Option String
  code : String
  expenseLimit : Option Int
  discountLimit : Option Int
deriving DecidableEq, Repr

/-- `LoginRequest`. -/
structure LoginRequest where
  email : String
  password : String
deriving DecidableEq, Repr

/-- `ChangePasswordRequest`. -/
structure ChangePasswordRequest where
  currentPassword : String
  newPassword : String
deriving DecidableEq, Repr

/-- `LoginResponse`. -/
structure LoginResponse where
  user : UserResponse
  tokens : TokenPair
deriving DecidableEq, Repr

/-! ## `AuthService` (`src/services/authService.ts`)

Every operation threads the store explicitly.  A thrown error is an
`Except.error`; in every modelled flow the source throws before its first
write, so an error leaves the store untouched. -/

namespace AuthService

/-- `AuthService.register`: uniqueness pre-check over the four fields (the
`findFirst` with an `OR` filter, then the field-priority cascade), password
strength validation, then insert with `expenseLimit || 0`,
`discountLimit || 0`, `point: 0`, `balance: 0`. -/
def register (db : AuthDb) (userData : RegisterRequest) :
    Except SvcError (UserResponse × AuthDb) :=
  let conflict : Option SvcError :=
    match db.users.find? (fun u =>
        decide (u.email = userData.email ∨ u.username = userData.username ∨
          u.phone = userData.phone ∨ u.code = userData.code)) with
    | none => none
    | some existingUser =>
        if existingUser.email = userData.email then
          some (SvcError.conflict "User with this email already exists")
        else if existingUser.username = userData.username then
          some (SvcError.conflict "Username already taken")
        else if existingUser.phone = userData.phone then
          some (SvcError.conflict "Phone number already registered")
        else if existingUser.code = userData.code then
          some (SvcError.conflict "User code already exists")
        else none
  match conflict with
  | some e => Except.error e
  | none =>
    if (PasswordUtils.validatePasswordStrength userData.password).isValid then
      let hashedPassword := PasswordUtils.hashPassword userData.password
      let newUser : User :=
        { id := db.nextUserId, email := userData.email,
          password := hashedPassword, name := userData.name,
          username := userData.username, phone := userData.phone,
          role := userData.role, address := userData.address,
          code := userData.code,
          expenseLimit := userData.expenseLimit.getD 0,
          discountLimit := userData.discountLimit.getD 0,
          point := 0, balance := 0 }
      Except.ok (newUser.toResponse,
        { db with users := db.users ++ [newUser],
                  nextUserId := db.nextUserId + 1 })
    else Except.error (SvcError.validation "Password does not meet requirements")

/-- `AuthService.login` running in the clock second `now`: find the user by
email; absent user and hash mismatch both raise the same generic message;
on success issue a token pair and insert the hashed refresh token. -/
def login (db : AuthDb) (loginData : LoginRequest) (now : Nat) :
    Except SvcError (LoginResponse × AuthDb) :=
  match db.users.find? (fun u => decide (u.email = loginData.email)) with
  | none => Except.error (SvcError.authentication "Invalid email or password")
  | some user =>
    if PasswordUtils.verifyPassword loginData.password user.password then
      let tokenPayload : JwtPayload :=
        { userId := user.id, email := user.email, role := user.role,
          code := user.code }
      let tokens := JwtUtils.generateTokenPair tokenPayload now
      let hashedRefreshToken := PasswordUtils.hashPassword tokens.refreshToken
      Except.ok ({ user := user.toResponse, tokens := tokens },
        { db with
            refreshTokens := db.refreshTokens ++
              [{ id := db.nextTokenId, hashedToken := hashedRefreshToken,
                 userId := user.id, revoked := false }],
            nextTokenId := db.nextTokenId + 1 })
    else Except.error (SvcError.authentication "Invalid email or password")

/-- `AuthService.refreshToken` running in the clock second `now`: verify the
presented token (an AuthenticationError thrown by `JwtUtils.verifyToken` is
re-thrown as-is by the catch block), `findFirst` the single active row for
the decoded user (no hash in the `where` clause), verify the presented
token against that row's hash, then rotate: revoke the matched row and
insert one new row with the new refresh token's hash. -/
def refreshToken (db : AuthDb) (tok : Token) (now : Nat) :
    Except SvcError (TokenPair × AuthDb) :=
  match JwtUtils.verifyToken tok now with
  | Except.error e => Except.error e
  | Except.ok decoded =>
    match db.refreshTokens.find? (fun r =>
        decide (r.userId = decoded.userId ∧ r.revoked = false)) with
    | none => Except.error (SvcError.authentication "Invalid refresh token")
    | some rcd =>
      if PasswordUtils.verifyPassword tok rcd.hashedToken then
        -- the `include: { user: ... }` of the `findFirst`
        match db.users.find? (fun u => decide (u.id = rcd.userId)) with
        | none => Except.error (SvcError.authentication "Invalid or expired refresh token")
        | some user =>
          let tokenPayload : JwtPayload :=
            { userId := user.id, email := user.email, role := user.role,
              code := user.code }
          let newTokens := JwtUtils.generateTokenPair tokenPayload now
          let hashedNewRefreshToken :=
            PasswordUtils.hashPassword newTokens.refreshToken
          Except.ok (newTokens,
            { db with
                refreshTokens :=
                  (db.refreshTokens.map (fun r =>
                    if r.id = rcd.id then { r with revoked := true } else r)) ++
                  [{ id := db.nextTokenId, hashedToken := hashedNewRefreshToken,
                     userId := user.id, revoked := false }],
                nextTokenId := db.nextTokenId + 1 })
      else Except.error (SvcError.authentication "Invalid refresh token")

/-- `AuthService.logout`: with a token, `findFirst` the single active row
for the user (no hash in the `where` clause) and revoke it only when its
hash verifies the presented token, silently doing nothing otherwise;
without a token, revoke every active row of the user.  Never throws. -/
def logout (db : AuthDb) (userId : Int) (refreshToken? : Option Token) :
    AuthDb :=
  match refreshToken? with
  | some tok =>
    match db.refreshTokens.find? (fun r =>
        decide (r.userId = userId ∧ r.revoked = false)) with
    | none => db
    | some rcd =>
      if PasswordUtils.verifyPassword tok rcd.hashedToken then
        { db with refreshTokens := db.refreshTokens.map (fun r =>
            if r.id = rcd.id then { r with revoked := true } else r) }
      else db
  | none =>
    { db with refreshTokens := db.refreshTokens.map (fun r =>
        if r.userId = userId ∧ r.revoked = false then { r with revoked := true }
        else r) }

/-- `AuthService.changePassword`: 404 on unknown user, AuthenticationError
on current-password mismatch, ValidationError on weak or unchanged new
password; then persist the new hash and revoke every active refresh token
of the user. -/
def changePassword (db : AuthDb) (userId : Int)
    (passwordData : ChangePasswordRequest) : Except SvcError AuthDb :=
  match db.users.find? (fun u => decide (u.id = userId)) with
  | none => Except.error (SvcError.notFound "User not found")
  | some user =>
    if PasswordUtils.verifyPassword passwordData.currentPassword user.password then
      if (PasswordUtils.validatePasswordStrength passwordData.newPassword).isValid then
        if PasswordUtils.verifyPassword passwordData.newPassword user.password then
          Except.error (SvcError.validation
            "New password must be different from current password")
        else
          let hashedNewPassword :=
            PasswordUtils.hashPassword passwordData.newPassword
          Except.ok
            { db with
                users := db.users.map (fun u =>
                  if u.id = userId then { u with password := hashedNewPassword }
                  else u),
                refreshTokens := db.refreshTokens.map (fun r =>
                  if r.userId = userId ∧ r.revoked = false then
                    { r with revoked := true }
                  else r) }
      else
        Except.error (SvcError.validation "New password does not meet requirements")
    else Except.error (SvcError.authentication "Current password is incorrect")

end AuthService

/-! ## `BankService` (`src/services/authService.ts`, second document) -/

/-- A `Bank` row. -/
structure Bank where
  id : Int
  code : String
  name : String
deriving DecidableEq, Repr

/-- An `AccountNumber` row (only the `bankCode` foreign key matters here:
it references the bank's natural key `code`, not its surrogate id). -/
structure AccountNumber where
  id : Int
  bankCode : String
deriving DecidableEq, Repr

/-- The slice of the store that `BankService` touches. -/
structure BankDb where
  banks : List Bank
  accountNumbers : List AccountNumber
  nextBankId : Int
deriving DecidableEq, Repr

/-- `CreateBankRequest`. -/
structure CreateBankRequest where
  code : String
  name : String
deriving DecidableEq, Repr

/-- JavaScript `String.prototype.toUpperCase()` on the ASCII codes these
services store (character-wise uppercasing). -/
def jsToUpperCase (s : String) : String :=
  String.mk (s.data.map Char.toUpper)

namespace BankService

/-- `BankService.createBank`: `findUnique` on the *raw* input code for the
conflict pre-check, length validation, then `prisma.bank.create` with the
code *uppercased*.  `Bank.code` is `@unique` in `prisma/schema.prisma`, so
the insert itself throws P2002 when the uppercased code already exists —
the service does not catch that. -/
def createBank (db : BankDb) (bankData : CreateBankRequest) :
    Except SvcError (Bank × BankDb) :=
  match db.banks.find? (fun b => decide (b.code = bankData.code)) with
  | some _ => Except.error (SvcError.conflict "Bank with this code already exists")
  | none =>
    if bankData.code.length = 3 then
      match db.banks.find? (fun b => decide (b.code = jsToUpperCase bankData.code)) with
      | some _ => Except.error (SvcError.prismaUniqueViolation "code")
      | none =>
        let newBank : Bank :=
          { id := db.nextBankId, code := jsToUpperCase bankData.code,
            name := bankData.name }
        Except.ok (newBank,
          { db with banks := db.banks ++ [newBank],
                    nextBankId := db.nextBankId + 1 })
    else Except.error (SvcError.validation "Bank code must be exactly 3 characters")

/-- `BankService.getBankById`. -/
def getBankById (db : BankDb) (id : Int) : Option Bank :=
  db.banks.find? (fun b => decide (b.id = id))

/-- `BankService.deleteBank`: 404 on unknown id; count `AccountNumber` rows
referencing the bank's `code`; conflict when any exist, hard-delete
otherwise.  The store is returned in all cases (errors leave it as is). -/
def deleteBank (db : BankDb) (id : Int) : Except SvcError Unit × BankDb :=
  match db.banks.find? (fun b => decide (b.id = id)) with
  | none => (Except.error (SvcError.notFound "Bank not found"), db)
  | some existingBank =>
    let accountNumberCount :=
      (db.accountNumbers.filter (fun a => decide (a.bankCode = existingBank.code))).length
    if accountNumberCount > 0 then
      (Except.error (SvcError.conflict
        "Cannot delete bank. It is referenced by account numbers."), db)
    else
      (Except.ok (),
        { db with banks := db.banks.filter (fun b => decide (b.id ≠ id)) })

end BankService

/-! ## `ColorService` (`src/services/colorService.ts`) -/

/-- A `Color` row. -/
structure Color where
  id : Int
  code : String
  name : String
deriving DecidableEq, Repr

/-- The slice of the store that `ColorService` touches. -/
structure ColorDb where
  colors : List Color
  nextColorId : Int
deriving DecidableEq, Repr

/-- `CreateColorRequest`. -/
structure CreateColorRequest where
  code : String
  name : String
deriving DecidableEq, Repr

/-- A hex digit under the `i` flag of `/^#[0-9A-F]{6}$/i`. -/
def isHexDigitChar (c : Char) : Bool :=
  c.isDigit || ('A' ≤ c && c ≤ 'F') || ('a' ≤ c && c ≤ 'f')

/-- The regex `/^#[0-9A-F]{6}$/i` of `createColor`. -/
def isHexColor (code : String) : Bool :=
  match code.toList with
  | '#' :: rest => rest.length = 6 && rest.all isHexDigitChar
  | _ => false

namespace ColorService

/-- `ColorService.createColor`: `findUnique` conflict pre-checks on the
*raw* input code and name, length and hex-format validation, then
`prisma.color.create` with the code *uppercased*.  `Color.code` and
`Color.name` are `@unique` in `prisma/schema.prisma`, so the insert itself
throws P2002 on a collision — the service does not catch that. -/
def createColor (db : ColorDb) (colorData : CreateColorRequest) :
    Except SvcError (Color × ColorDb) :=
  match db.colors.find? (fun c => decide (c.code = colorData.code)) with
  | some _ => Except.error (SvcError.conflict "Color with this code already exists")
  | none =>
    match db.colors.find? (fun c => decide (c.name = colorData.name)) with
    | some _ => Except.error (SvcError.conflict "Color with this name already exists")
    | none =>
      if colorData.code.length = 7 then
        if isHexColor colorData.code then
          match db.colors.find? (fun c =>
              decide (c.code = jsToUpperCase colorData.code)) with
          | some _ => Except.error (SvcError.prismaUniqueViolation "code")
          | none =>
            match db.colors.find? (fun c => decide (c.name = colorData.name)) with
            | some _ => Except.error (SvcError.prismaUniqueViolation "name")
            | none =>
              let newColor : Color :=
                { id := db.nextColorId, code := jsToUpperCase colorData.code,
                  name := colorData.name }
              Except.ok (newColor,
                { db with colors := db.colors ++ [newColor],
                          nextColorId := db.nextColorId + 1 })
        else
          Except.error (SvcError.validation
            "Color code must be a valid hex color format (e.g., #FF0000)")
      else
        Except.error (SvcError.validation
          "Color code must be exactly 7 characters (e.g., #FF0000)")

end ColorService

/-! ## Shared lemmas about the refresh-token flow -/

/-- Whenever the presented token verifies to a payload but fails the bcrypt
check against every active row of the decoded user, `refreshToken` raises an
AuthenticationError (covering both the no-active-row and hash-mismatch
paths of the source). -/
lemma refreshToken_error_of_mismatch (db : AuthDb) (tok : Token) (now : Nat)
    (pl : JwtPayload) (hv : JwtUtils.verifyToken tok now = Except.ok pl)
    (h : ∀ r ∈ db.refreshTokens, r.userId = pl.userId → r.revoked = false →
      PasswordUtils.verifyPassword tok r.hashedToken = false) :
    ∃ msg, AuthService.refreshToken db tok now =
      Except.error (SvcError.authentication msg) := by
  unfold AuthService.refreshToken
  cases hf : db.refreshTokens.find? (fun r =>
      decide (r.userId = pl.userId ∧ r.revoked = false)) with
  | none =>
    refine ⟨"Invalid refresh token", ?_⟩
    simp only [hv]
    rw [hf]
  | some rcd =>
    have hmem := List.mem_of_find?_eq_some hf
    have hpred := List.find?_some hf
    simp only [decide_eq_true_eq] at hpred
    have hvf := h rcd hmem hpred.1 hpred.2
    refine ⟨"Invalid refresh token", ?_⟩
    simp only [hv, hf]
    rw [hvf]
    simp

/-- **C4** — When no user carries the supplied email, or the matched user's
stored hash does not verify the supplied password, `login` raises an
AuthenticationError with the same generic message `"Invalid email or
password"` in both cases: the error does not distinguish an unknown email
from a wrong password. -/
theorem login_generic_error (db : AuthDb) (loginData : LoginRequest) (now : Nat)
    (h : (∀ u ∈ db.users, u.email ≠ loginData.email) ∨
      ∃ user, db.users.find? (fun u => decide (u.email = loginData.email)) = some user ∧
        PasswordUtils.verifyPassword loginData.password user.password = false) :
    AuthService.login db loginData now =
      Except.error (SvcError.authentication "Invalid email or password") := by
  rcases h with h | ⟨user, hu, hv⟩
  · have hf : db.users.find? (fun u => decide (u.email = loginData.email)) = none :=
      List.find?_eq_none.mpr (fun u hu => by simpa using h u hu)
    simp [AuthService.login, hf]
  · simp [AuthService.login, hu, hv]

/-- Witness for `login_generic_error`: an empty store (unknown email), and a
one-user store with the wrong password. -/
theorem login_generic_error_witness :
    AuthService.login ⟨[], [], 1, 1⟩ ⟨"nobody@example.com", "pw"⟩ 100 =
        Except.error (SvcError.authentication "Invalid email or password") ∧
    AuthService.login
        ⟨[⟨7, "u7@x.com", ⟨"Secret1!"⟩, "U Seven", "useven", "0811", "KASIR",
            none, "U7", 0, 0, 0, 0⟩], [], 8, 1⟩
        ⟨"u7@x.com", "WrongPass"⟩ 100 =
      Except.error (SvcError.authentication "Invalid email or password") :=
  ⟨login_generic_error _ _ _ (Or.inl (by decide)),
   login_generic_error _ _ _ (Or.inr
     ⟨⟨7, "u7@x.com", ⟨"Secret1!"⟩, "U Seven", "useven", "0811", "KASIR",
        none, "U7", 0, 0, 0, 0⟩, by decide, by decide⟩)⟩

/-- **C8** — `deleteBank`: unknown id raises NotFoundError; a bank whose
`code` is referenced by at least one `AccountNumber` row (reference counted
by the natural key `code`, not the surrogate id) raises ConflictError with
the store unchanged; a bank with zero references is hard-deleted and a
subsequent `getBankById` returns `none`. -/
theorem deleteBank_spec (db : BankDb) (id : Int) :
    ((∀ b ∈ db.banks, b.id ≠ id) →
      BankService.deleteBank db id =
        (Except.error (SvcError.notFound "Bank not found"), db)) ∧
    (∀ b, db.banks.find? (fun x => decide (x.id = id)) = some b →
      ((∃ a ∈ db.accountNumbers, a.bankCode = b.code) →
        BankService.deleteBank db id =
          (Except.error (SvcError.conflict
            "Cannot delete bank. It is referenced by account numbers."), db)) ∧
      ((∀ a ∈ db.accountNumbers, a.bankCode ≠ b.code) →
        (BankService.deleteBank db id).1 = Except.ok () ∧
        BankService.getBankById (BankService.deleteBank db id).2 id = none)) := by
  constructor
  · intro h
    have hf : db.banks.find? (fun x => decide (x.id = id)) = none :=
      List.find?_eq_none.mpr (fun b hb => by simpa using h b hb)
    simp [BankService.deleteBank, hf]
  · intro b hb
    constructor
    · rintro ⟨a, ha, hcode⟩
      have hmem : a ∈ db.accountNumbers.filter (fun x => decide (x.bankCode = b.code)) :=
        List.mem_filter.mpr ⟨ha, by simp [hcode]⟩
      have hpos : 0 < (db.accountNumbers.filter
          (fun x => decide (x.bankCode = b.code))).length :=
        List.length_pos_of_mem hmem
      simp only [BankService.deleteBank, hb]
      rw [if_pos hpos]
    · intro hnone
      have hnil : db.accountNumbers.filter (fun x => decide (x.bankCode = b.code)) = [] :=
        List.filter_eq_nil_iff.mpr (fun a ha => by simpa using hnone a ha)
      have hfind : (db.banks.filter (fun x => decide (x.id ≠ id))).find?
          (fun x => decide (x.id = id)) = none :=
        List.find?_eq_none.mpr (fun x hx => by
          have hxf := (List.mem_filter.mp hx).2
          simp only [decide_eq_true_eq] at hxf ⊢
          simp [hxf])
      constructor
      · simp only [BankService.deleteBank, hb, hnil]
        rfl
      · simp only [BankService.deleteBank, BankService.getBankById, hb, hnil]
        simp only [List.length_nil, gt_iff_lt, lt_self_iff_false, if_false]
        exact hfind

/-- **C9** — The create-time uniqueness pre-check of `createBank` and
`createColor` compares the *raw* input code (case-sensitively) while the
insert stores the *uppercased* code: the ConflictError for a duplicate code
is raised iff some stored code equals the raw input exactly, and a concrete
pair of creates whose codes differ only in letter case shows the second
passing the pre-check — no ConflictError although its uppercased code
collides with the first — and the insert itself then being rejected by the
schema's `@unique` constraint (P2002), storing nothing. -/
theorem create_precheck_uses_raw_code :
    (∀ (db : BankDb) (data : CreateBankRequest),
      BankService.createBank db data =
          Except.error (SvcError.conflict "Bank with this code already exists") ↔
        ∃ b ∈ db.banks, b.code = data.code) ∧
    (∀ (db : ColorDb) (data : CreateColorRequest),
      ColorService.createColor db data =
          Except.error (SvcError.conflict "Color with this code already exists") ↔
        ∃ c ∈ db.colors, c.code = data.code) ∧
    (BankService.createBank ⟨[], [], 1⟩ ⟨"abc", "Alpha Bank"⟩ =
      Except.ok (⟨1, "ABC", "Alpha Bank"⟩,
        ⟨[⟨1, "ABC", "Alpha Bank"⟩], [], 2⟩)) ∧
    (jsToUpperCase "aBc" = "ABC") ∧
    (BankService.createBank ⟨[⟨1, "ABC", "Alpha Bank"⟩], [], 2⟩ ⟨"aBc", "Beta Bank"⟩ =
      Except.error (SvcError.prismaUniqueViolation "code")) := by
  refine ⟨fun db data => ?_, fun db data => ?_, by decide, by decide, by decide⟩
  · constructor
    · intro h
      cases hf : db.banks.find? (fun b => decide (b.code = data.code)) with
      | some b =>
        exact ⟨b, List.mem_of_find?_eq_some hf, by
          simpa using List.find?_some hf⟩
      | none =>
        simp only [BankService.createBank, hf] at h
        repeat' split at h
        all_goals simp at h
    · rintro ⟨b, hb, hcode⟩
      have hsome : (db.banks.find? (fun x => decide (x.code = data.code))).isSome :=
        List.find?_isSome.mpr ⟨b, hb, by simp [hcode]⟩
      obtain ⟨b', hb'⟩ := Option.isSome_iff_exists.mp hsome
      simp [BankService.createBank, hb']
  · constructor
    · intro h
      cases hf : db.colors.find? (fun c => decide (c.code = data.code)) with
      | some c =>
        exact ⟨c, List.mem_of_find?_eq_some hf, by
          simpa using List.find?_some hf⟩
      | none =>
        simp only [ColorService.createColor, hf] at h
        cases hg : db.colors.find? (fun c => decide (c.name = data.name)) with
        | some c => simp [hg] at h
        | none =>
          simp only [hg] at h
          repeat' split at h
          all_goals simp at h
    · rintro ⟨c, hc, hcode⟩
      have hsome : (db.colors.find? (fun x => decide (x.code = data.code))).isSome :=
        List.find?_isSome.mpr ⟨c, hc, by simp [hcode]⟩
      obtain ⟨c', hc'⟩ := Option.isSome_iff_exists.mp hsome
      simp [ColorService.createColor, hc']

/-- **C6 counterexample** — A user with two active refresh-token rows calls
`logout` with the token matching the *second* active row: the source's
`findFirst` selects only the first active row, its hash check fails, and
nothing at all is revoked — although an active row matching the presented
token exists.  This refutes "revokes exactly the active RefreshToken row
whose hash matches the presented token". -/
theorem logout_keeps_matching_second_row :
    (let pl : JwtPayload := ⟨7, "u7@x.com", "KASIR", "U7"⟩
     let r2 : UserRefreshToken := ⟨2, ⟨Token.signed pl 101 604901⟩, 7, false⟩
     let db : AuthDb :=
       ⟨[], [⟨1, ⟨Token.signed pl 100 604900⟩, 7, false⟩, r2], 1, 3⟩
     let t2 : Token := Token.signed pl 101 604901
     r2 ∈ db.refreshTokens ∧ r2.revoked = false ∧ r2.userId = 7 ∧
       PasswordUtils.verifyPassword t2 r2.hashedToken = true ∧
       AuthService.logout db 7 (some t2) = db) := by
  decide

/-- **C6 amended** — `logout` with a token consults only the *first* active
row the store returns for the user: it revokes that row exactly when its
hash verifies the presented token (leaving every other row unchanged) and
is a silent no-op otherwise — even when a *later* active row matches the
token; `logout` without a token revokes precisely the active rows of that
user, leaving all other rows unchanged. -/
theorem logout_spec (db : AuthDb) (userId : Int) (tok : Token) :
    (db.refreshTokens.find? (fun r =>
        decide (r.userId = userId ∧ r.revoked = false)) = none →
      AuthService.logout db userId (some tok) = db) ∧
    (∀ rcd, db.refreshTokens.find? (fun r =>
        decide (r.userId = userId ∧ r.revoked = false)) = some rcd →
      PasswordUtils.verifyPassword tok rcd.hashedToken = false →
      AuthService.logout db userId (some tok) = db) ∧
    (∀ rcd, db.refreshTokens.find? (fun r =>
        decide (r.userId = userId ∧ r.revoked = false)) = some rcd →
      PasswordUtils.verifyPassword tok rcd.hashedToken = true →
      (AuthService.logout db userId (some tok)).users = db.users ∧
      (AuthService.logout db userId (some tok)).refreshTokens.length =
        db.refreshTokens.length ∧
      ∀ i (hi : i < db.refreshTokens.length)
          (hi2 : i < (AuthService.logout db userId (some tok)).refreshTokens.length),
        (db.refreshTokens[i].id = rcd.id →
          (AuthService.logout db userId (some tok)).refreshTokens[i] =
            { db.refreshTokens[i] with revoked := true }) ∧
        (db.refreshTokens[i].id ≠ rcd.id →
          (AuthService.logout db userId (some tok)).refreshTokens[i] =
            db.refreshTokens[i])) ∧
    ((AuthService.logout db userId none).users = db.users ∧
      (AuthService.logout db userId none).refreshTokens.length =
        db.refreshTokens.length ∧
      ∀ i (hi : i < db.refreshTokens.length)
          (hi2 : i < (AuthService.logout db userId none).refreshTokens.length),
        (db.refreshTokens[i].userId = userId ∧ db.refreshTokens[i].revoked = false →
          (AuthService.logout db userId none).refreshTokens[i] =
            { db.refreshTokens[i] with revoked := true }) ∧
        (¬ (db.refreshTokens[i].userId = userId ∧ db.refreshTokens[i].revoked = false) →
          (AuthService.logout db userId none).refreshTokens[i] =
            db.refreshTokens[i])) := by
  refine ⟨?_, ?_, ?_, ?_⟩
  · intro h
    simp only [AuthService.logout]
    rw [h]
  · intro rcd h hv
    simp only [AuthService.logout, h]
    rw [hv]
    simp
  · intro rcd h hv
    have hL : AuthService.logout db userId (some tok) =
        { db with refreshTokens := db.refreshTokens.map (fun r =>
            if r.id = rcd.id then { r with revoked := true } else r) } := by
      simp only [AuthService.logout, h]
      rw [hv]
      simp
    rw [hL]
    refine ⟨rfl, by simp, ?_⟩
    intro i hi hi2
    constructor
    · intro hid
      simp only [List.getElem_map]
      rw [if_pos hid]
    · intro hid
      simp only [List.getElem_map]
      rw [if_neg hid]
  · have hL : AuthService.logout db userId none =
        { db with refreshTokens := db.refreshTokens.map (fun r =>
            if r.userId = userId ∧ r.revoked = false then { r with revoked := true }
            else r) } := rfl
    rw [hL]
    refine ⟨rfl, by simp, ?_⟩
    intro i hi hi2
    constructor
    · intro hcond
      simp only [List.getElem_map]
      rw [if_pos hcond]
    · intro hcond
      simp only [List.getElem_map]
      rw [if_neg hcond]

/-- **C7 counterexample** — `register` with a supplied `expenseLimit` of 500
succeeds and inserts a User row whose `expenseLimit` is 500, not 0 (the
source uses `userData.expenseLimit || 0`, a default, not a constant). -/
theorem register_keeps_supplied_expense_limit :
    AuthService.register ⟨[], [], 1, 1⟩
        ⟨"a@x.com", "Abcdef1!", "Alice", "alice", "0812", "KASIR", none, "U1",
          some 500, none⟩ =
      Except.ok
        (⟨1, "a@x.com", "Alice", "alice", "0812", "KASIR", none, "U1",
           500, 0, 0, 0⟩,
         ⟨[⟨1, "a@x.com", ⟨"Abcdef1!"⟩, "Alice", "alice", "0812", "KASIR",
             none, "U1", 500, 0, 0, 0⟩], [], 2, 1⟩) ∧
    (500 : Int) ≠ 0 := by
  decide

/-- The effect the amended C7 states for a successful `register`: exactly one
User row is appended; its `point` and `balance` are 0; `expenseLimit` and
`discountLimit` are the supplied values defaulted to 0 when absent
(`|| 0`); the stored password is the hash of the supplied password; and the
returned object is the password-less projection of the inserted row
(`UserResponse` carries no password field). -/
def RegisterInsertsDefaults (db : AuthDb) (userData : RegisterRequest)
    (resp : UserResponse) (db2 : AuthDb) : Prop :=
  ∃ u : User,
    db2.users = db.users ++ [u] ∧
    u.point = 0 ∧ u.balance = 0 ∧
    u.expenseLimit = userData.expenseLimit.getD 0 ∧
    u.discountLimit = userData.discountLimit.getD 0 ∧
    u.password = PasswordUtils.hashPassword userData.password ∧
    PasswordUtils.verifyPassword userData.password u.password = true ∧
    resp = u.toResponse ∧
    db2.refreshTokens = db.refreshTokens

/-- **C7 amended** — Every successful `register` call inserts exactly one
User row with `point = 0`, `balance = 0`, `expenseLimit` and
`discountLimit` equal to the supplied values defaulted to 0 when absent,
the stored password being the hash of the supplied password, and returns
the password-less projection of that row. -/
theorem register_spec (db : AuthDb) (userData : RegisterRequest)
    (resp : UserResponse) (db2 : AuthDb)
    (h : AuthService.register db userData = Except.ok (resp, db2)) :
    RegisterInsertsDefaults db userData resp db2 := by
  simp only [AuthService.register] at h
  split at h
  · exact absurd h (by simp)
  · split at h
    · simp only [Except.ok.injEq, Prod.mk.injEq] at h
      obtain ⟨hresp, hdb2⟩ := h
      refine ⟨_, ?_, rfl, rfl, rfl, rfl, rfl, ?_, hresp.symm, ?_⟩
      · rw [← hdb2]
      · simp [PasswordUtils.verifyPassword, PasswordUtils.hashPassword]
      · rw [← hdb2]
    · exact absurd h (by simp)

/-- Witness for `register_spec` at a concrete request carrying
`expenseLimit = 500` on an empty store. -/
theorem register_spec_witness :
    RegisterInsertsDefaults ⟨[], [], 1, 1⟩
      ⟨"a@x.com", "Abcdef1!", "Alice", "alice", "0812", "KASIR", none, "U1",
        some 500, none⟩
      ⟨1, "a@x.com", "Alice", "alice", "0812", "KASIR", none, "U1",
        500, 0, 0, 0⟩
      ⟨[⟨1, "a@x.com", ⟨"Abcdef1!"⟩, "Alice", "alice", "0812", "KASIR",
          none, "U1", 500, 0, 0, 0⟩], [], 2, 1⟩ :=
  register_spec _ _ _ _ (by decide)

/-- The effect the claim states for a successful `changePassword`: every
user row with the given id now verifies the new password; every refresh
token row of that user is revoked (those active before are re-issued with
`revoked := true`, positionally); and any validly signed token decoding to
that user subsequently fails `refreshToken` with an AuthenticationError. -/
def ChangePasswordRevokesSessions (db : AuthDb) (userId : Int)
    (passwordData : ChangePasswordRequest) (db2 : AuthDb) : Prop :=
  (∀ u ∈ db2.users, u.id = userId →
    PasswordUtils.verifyPassword passwordData.newPassword u.password = true) ∧
  (∀ r ∈ db2.refreshTokens, r.userId = userId → r.revoked = true) ∧
  db2.refreshTokens.length = db.refreshTokens.length ∧
  (∀ i (hi : i < db.refreshTokens.length) (hi2 : i < db2.refreshTokens.length),
    db.refreshTokens[i].userId = userId → db.refreshTokens[i].revoked = false →
    db2.refreshTokens[i] = { db.refreshTokens[i] with revoked := true }) ∧
  (∀ (tok : Token) (now : Nat) (pl : JwtPayload),
    JwtUtils.verifyToken tok now = Except.ok pl → pl.userId = userId →
    ∃ msg, AuthService.refreshToken db2 tok now =
      Except.error (SvcError.authentication msg))

/-- **C5** — After a successful `changePassword(userId, current, new)` the
user's stored hash verifies the new password, every refresh-token row of
the user that was active before the call is revoked, and every validly
signed refresh token for that user subsequently fails `refreshToken` with
an AuthenticationError. -/
theorem changePassword_spec (db : AuthDb) (userId : Int)
    (passwordData : ChangePasswordRequest) (db2 : AuthDb)
    (h : AuthService.changePassword db userId passwordData = Except.ok db2) :
    ChangePasswordRevokesSessions db userId passwordData db2 := by
  simp only [AuthService.changePassword] at h
  split at h
  · exact absurd h (by simp)
  · split at h
    · split at h
      · split at h
        · exact absurd h (by simp)
        · simp only [Except.ok.injEq] at h
          subst h
          refine ⟨?_, ?_, by simp, ?_, ?_⟩
          · intro u hu hid
            obtain ⟨u0, hu0, hmap⟩ := List.mem_map.mp hu
            by_cases hid0 : u0.id = userId
            · rw [if_pos hid0] at hmap
              rw [← hmap]
              simp [PasswordUtils.verifyPassword, PasswordUtils.hashPassword]
            · rw [if_neg hid0] at hmap
              rw [← hmap] at hid
              exact absurd hid hid0
          · intro r hr hid
            obtain ⟨r0, hr0, hmap⟩ := List.mem_map.mp hr
            by_cases hcond : r0.userId = userId ∧ r0.revoked = false
            · rw [if_pos hcond] at hmap
              rw [← hmap]
            · rw [if_neg hcond] at hmap
              rw [← hmap] at hid ⊢
              rcases Bool.eq_false_or_eq_true r0.revoked with hrev | hrev
              · exact hrev
              · exact absurd ⟨hid, hrev⟩ hcond
          · intro i hi hi2 huid hrev
            simp only [List.getElem_map]
            rw [if_pos ⟨huid, hrev⟩]
          · intro tok now pl hv hpluid
            apply refreshToken_error_of_mismatch _ _ _ pl hv
            intro r hr hruid hrrev
            obtain ⟨r0, hr0, hmap⟩ := List.mem_map.mp hr
            by_cases hcond : r0.userId = userId ∧ r0.revoked = false
            · rw [if_pos hcond] at hmap
              rw [← hmap] at hrrev
              simp at hrrev
            · rw [if_neg hcond] at hmap
              rw [← hmap] at hruid hrrev
              rw [hpluid] at hruid
              exact absurd ⟨hruid, hrrev⟩ hcond
      · exact absurd h (by simp)
    · exact absurd h (by simp)

/-- Witness for `changePassword_spec`: a one-user store with one active
refresh-token row; after the password change the row is revoked and the new
password verifies. -/
theorem changePassword_spec_witness :
    ChangePasswordRevokesSessions
      ⟨[⟨7, "u7@x.com", ⟨"Oldpass1!"⟩, "U Seven", "useven", "0811", "KASIR",
          none, "U7", 0, 0, 0, 0⟩],
       [⟨1, ⟨Token.signed ⟨7, "u7@x.com", "KASIR", "U7"⟩ 100 604900⟩, 7, false⟩],
       8, 2⟩
      7 ⟨"Oldpass1!", "Newpass1!"⟩
      ⟨[⟨7, "u7@x.com", ⟨"Newpass1!"⟩, "U Seven", "useven", "0811", "KASIR",
          none, "U7", 0, 0, 0, 0⟩],
       [⟨1, ⟨Token.signed ⟨7, "u7@x.com", "KASIR", "U7"⟩ 100 604900⟩, 7, true⟩],
       8, 2⟩ :=
  changePassword_spec _ _ _ _ (by decide)


/-- **C10 counterexample** — The claim's first half ("a validly signed token
whose hash matches some active row other than the selected one raises
AuthenticationError") fails when the token *also* matches the selected row.
The state is program-realizable: two `login` calls for the same user within
the same clock second store two rows for the *identical* refresh token
(`jwt.sign` is deterministic per payload and second; the two bcrypt hashes
differ as strings but both verify that one token).  Presenting that token,
it matches active row 2 — a row other than the selected first row — yet
`refreshToken` succeeds. -/
theorem refreshToken_accepts_token_matching_other_row :
    (let pl : JwtPayload := ⟨7, "u7@x.com", "KASIR", "U7"⟩
     let t : Token := Token.signed pl 100 604900
     let user7 : User := ⟨7, "u7@x.com", ⟨"Secret1!"⟩, "U Seven", "useven",
       "0811", "KASIR", none, "U7", 0, 0, 0, 0⟩
     let r1 : UserRefreshToken := ⟨1, ⟨t⟩, 7, false⟩
     let r2 : UserRefreshToken := ⟨2, ⟨t⟩, 7, false⟩
     let db : AuthDb := ⟨[user7], [r1, r2], 8, 3⟩
     JwtUtils.verifyToken t 100 = Except.ok pl ∧
     db.refreshTokens.find? (fun r =>
       decide (r.userId = pl.userId ∧ r.revoked = false)) = some r1 ∧
     r2 ∈ db.refreshTokens ∧ r2 ≠ r1 ∧ r2.revoked = false ∧ r2.userId = 7 ∧
     PasswordUtils.verifyPassword t r2.hashedToken = true ∧
     (AuthService.refreshToken db t 100).isOk = true) := by
  decide

/-- **C10 amended** — `refreshToken` verifies the presented token's hash
against only the single active row `findFirst` returns for the decoded
user, never scanning the others: a validly signed token that fails that
selected row's hash check — in particular one matching only some *other*
active row of the user — raises AuthenticationError, and a successful
refresh requires the presented token to verify against that selected first
active row. -/
theorem refreshToken_checks_only_first_active_row (db : AuthDb) (tok : Token)
    (now : Nat) :
    (∀ pl rcd, JwtUtils.verifyToken tok now = Except.ok pl →
      db.refreshTokens.find? (fun r =>
        decide (r.userId = pl.userId ∧ r.revoked = false)) = some rcd →
      PasswordUtils.verifyPassword tok rcd.hashedToken = false →
      AuthService.refreshToken db tok now =
        Except.error (SvcError.authentication "Invalid refresh token")) ∧
    (∀ result, AuthService.refreshToken db tok now = Except.ok result →
      ∃ pl rcd, JwtUtils.verifyToken tok now = Except.ok pl ∧
        db.refreshTokens.find? (fun r =>
          decide (r.userId = pl.userId ∧ r.revoked = false)) = some rcd ∧
        PasswordUtils.verifyPassword tok rcd.hashedToken = true) := by
  constructor
  · intro pl rcd hv hf hvf
    unfold AuthService.refreshToken
    simp only [hv, hf]
    rw [hvf]
    simp
  · intro result h
    unfold AuthService.refreshToken at h
    cases hv : JwtUtils.verifyToken tok now with
    | error e =>
      rw [hv] at h
      exact absurd h (by simp)
    | ok pl =>
      simp only [hv] at h
      cases hf : db.refreshTokens.find? (fun r =>
          decide (r.userId = pl.userId ∧ r.revoked = false)) with
      | none =>
        simp only [hf] at h
        exact absurd h (by simp)
      | some rcd =>
        simp only [hf] at h
        by_cases hb : PasswordUtils.verifyPassword tok rcd.hashedToken = true
        · exact ⟨pl, rcd, rfl, hf, hb⟩
        · rw [Bool.eq_false_iff.mpr hb] at h
          simp at h

/-- Witness for `refreshToken_checks_only_first_active_row`: two distinct
active rows (tokens issued in different seconds); presenting the token of
the *second* row fails the first (selected) row's hash check and raises the
AuthenticationError. -/
theorem refreshToken_checks_only_first_active_row_witness :
    AuthService.refreshToken
      ⟨[], [⟨1, ⟨Token.signed ⟨7, "u7@x.com", "KASIR", "U7"⟩ 100 604900⟩, 7, false⟩,
            ⟨2, ⟨Token.signed ⟨7, "u7@x.com", "KASIR", "U7"⟩ 101 604901⟩, 7, false⟩],
       1, 3⟩
      (Token.signed ⟨7, "u7@x.com", "KASIR", "U7"⟩ 101 604901) 101 =
      Except.error (SvcError.authentication "Invalid refresh token") :=
  (refreshToken_checks_only_first_active_row _ _ _).1
    ⟨7, "u7@x.com", "KASIR", "U7"⟩
    ⟨1, ⟨Token.signed ⟨7, "u7@x.com", "KASIR", "U7"⟩ 100 604900⟩, 7, false⟩
    (by decide) (by decide) (by decide)

/-- **C1 (code bug)** — The spec demands strict single-use rotation
("replay of a consumed refresh token must fail"), but the program does not
guarantee it: `jwt.sign` is deterministic per payload and clock second, so
a refresh executed in the same second in which the presented token was
issued re-issues the *identical* refresh token and stores its hash as the
"new" row.  Concretely below: the rotation's returned pair contains the
presented token `tA` itself, and a second `refreshToken(tA)` call succeeds
instead of raising AuthenticationError. -/
theorem refreshToken_replays_after_same_second_rotation :
    (let pl : JwtPayload := ⟨7, "u7@x.com", "KASIR", "U7"⟩
     let tA : Token := Token.signed pl 100 604900
     let user7 : User := ⟨7, "u7@x.com", ⟨"Secret1!"⟩, "U Seven", "useven",
       "0811", "KASIR", none, "U7", 0, 0, 0, 0⟩
     let db : AuthDb := ⟨[user7], [⟨1, ⟨tA⟩, 7, false⟩], 8, 2⟩
     let db2 : AuthDb := ⟨[user7], [⟨1, ⟨tA⟩, 7, true⟩, ⟨2, ⟨tA⟩, 7, false⟩], 8, 3⟩
     JwtUtils.generateRefreshToken pl 100 = tA ∧
     AuthService.refreshToken db tA 100 =
       Except.ok (⟨Token.signed pl 100 86500, tA⟩, db2) ∧
     (AuthService.refreshToken db2 tA 100).isOk = true) := by
  decide

end Simagis
